import Mathlib

/-!
# Verification of the youtube-commenter credential / sync subsystem

A shallow embedding of the Rust sources (`src/services/auth.rs`,
`src/services/youtube.rs`, `src/db/mod.rs`, `src/api/handlers.rs`) into
Lean 4, plus theorems settling the specification's claims about them.

Modelling conventions:
* `Time` is `Int` (seconds); `chrono::Duration::minutes 5` is `300`,
  `Duration::days 7` is `604800`, `Duration::seconds n` is `n`.
* The SurrealDB store is a record of lists, one per table, in insertion
  order.  `create` appends a record; `SELECT ... LIMIT 1` is the first
  matching record; `UPDATE ... WHERE` maps over all matching records;
  `DELETE ... WHERE` filters matching records out.
* HTTP calls are modelled by passing the remote endpoint's response in as
  an argument: `Except String r` is a successful (2xx, parsed) response
  `.ok r` or a non-success / network failure `.error e` (the Rust code
  `bail!`s on both).  A paginated endpoint is the list of responses the
  server gives to the successive requests of one pagination loop.
* `Utc::now()` is passed in as a `now : Time` argument; `Uuid::new_v4`
  as fresh-id arguments.
* Side effects that matter to the claims (page requests, rate-limit
  sleeps) are reified as an `Event` trace returned next to the result.
-/

abbrev Time := Int

/-- `HashMap<String, String>` metadata, as an association list. -/
abbrev StrMap := List (String × String)

/-! ## Data model (`src/models/auth.rs`, construction sites in
`src/services/youtube.rs` and `src/api/handlers.rs`) -/

/-- `ReplyTone` from `src/models/auth.rs`. -/
inductive ReplyTone where
  | professional
  | friendly
  | enthusiastic
  | helpful
  | custom (instructions : String)
deriving DecidableEq, Repr

/-- `UserPreferences` from `src/models/auth.rs`. -/
structure UserPreferences where
  enable_ai_replies : Bool
  ai_model : String
  reply_tone : ReplyTone
  enable_notifications : Bool
  polling_interval : Nat
  additional : StrMap
deriving DecidableEq, Repr

/-- `User` from `src/models/auth.rs`. -/
structure User where
  id : String
  name : String
  email : Option String
  profile_picture_url : Option String
  created_at : Time
  updated_at : Time
  preferences : UserPreferences
  metadata : StrMap
deriving DecidableEq, Repr

/-- `AuthToken` from `src/models/auth.rs` (the spec's Credential). -/
structure AuthToken where
  access_token : String
  refresh_token : String
  expires_at : Time
  token_type : String
  scopes : List String
deriving DecidableEq, Repr

/-- `Session` from `src/models/auth.rs`. -/
structure Session where
  id : String
  user_id : String
  created_at : Time
  expires_at : Time
  ip_address : String
  user_agent : String
  is_active : Bool
deriving DecidableEq, Repr

/-- `Reply` as constructed in `src/services/youtube.rs` (the spec's
RemoteReply). -/
structure Reply where
  reply_id : String
  parent_id : String
  author : String
  author_channel_id : String
  text : String
  like_count : Int
  published_at : Time
  ai_generated : Bool
  ai_model : Option String
  metadata : StrMap
deriving DecidableEq, Repr

/-- `Comment` as constructed in `src/services/youtube.rs` (the spec's
RemoteComment). -/
structure Comment where
  video_id : String
  comment_id : String
  author : String
  author_channel_id : String
  text : String
  like_count : Int
  published_at : Time
  replies : List Reply
  replied_to : Bool
  metadata : StrMap
deriving DecidableEq, Repr

/-- `InteractionType`, reconstructed from its construction sites in
`src/services/youtube.rs` and `src/api/handlers.rs` (the enum declaration
itself is not among the sources; the spec lists the same three kinds,
naming the first `CommentObserved`). -/
inductive InteractionType where
  | commentReceived
  | replyGenerated
  | replyPosted
deriving DecidableEq, Repr

/-- `InteractionRecord`, reconstructed from its construction sites in
`src/services/youtube.rs` and `src/api/handlers.rs`. -/
structure InteractionRecord where
  id : String
  user_id : String
  video_id : String
  comment_id : String
  reply_id : Option String
  interaction_type : InteractionType
  timestamp : Time
  data : StrMap
deriving DecidableEq, Repr

/-! ## Database (`src/db/mod.rs`)

The SurrealDB tables, in insertion order.  Auth tokens are stored with
the owning `user_id` key, exactly as `save_auth_token` writes them. -/

structure DB where
  comments : List Comment
  users : List User
  auth_tokens : List (String × AuthToken)
  sessions : List Session
  interactions : List InteractionRecord
deriving DecidableEq, Repr

namespace DB

/-- `Database::get_comment`: `SELECT * FROM comments WHERE comment_id =
$comment_id LIMIT 1`. -/
def get_comment (db : DB) (comment_id : String) : Option Comment :=
  db.comments.find? (fun c => c.comment_id == comment_id)

/-- `Database::save_comments`: one `create("comments").content(comment)`
per comment — each call appends a fresh record, nothing is deleted or
replaced. -/
def save_comments (db : DB) (_video_id : String) (cs : List Comment) : DB :=
  { db with comments := db.comments ++ cs }

/-- `Database::mark_comment_replied`: `UPDATE comments SET replied_to =
$replied WHERE comment_id = $comment_id` (updates every matching record). -/
def mark_comment_replied (db : DB) (comment_id : String) (replied : Bool) : DB :=
  { db with comments := db.comments.map (fun c =>
      if c.comment_id == comment_id then { c with replied_to := replied } else c) }

/-- `Database::get_user`: `SELECT * FROM users WHERE id = $user_id LIMIT 1`. -/
def get_user (db : DB) (user_id : String) : Option User :=
  db.users.find? (fun u => u.id == user_id)

/-- `Database::save_auth_token`: `DELETE FROM auth_tokens WHERE user_id =
$user_id` then `create("auth_tokens")` with the new record. -/
def save_auth_token (db : DB) (user_id : String) (tok : AuthToken) : DB :=
  { db with auth_tokens :=
      db.auth_tokens.filter (fun p => !(p.1 == user_id)) ++ [(user_id, tok)] }

/-- `Database::get_auth_token`: `SELECT * FROM auth_tokens WHERE user_id =
$user_id LIMIT 1`. -/
def get_auth_token (db : DB) (user_id : String) : Option AuthToken :=
  (db.auth_tokens.find? (fun p => p.1 == user_id)).map (·.2)

/-- `Database::get_session`: `SELECT * FROM sessions WHERE id =
$session_id LIMIT 1`. -/
def get_session (db : DB) (session_id : String) : Option Session :=
  db.sessions.find? (fun s => s.id == session_id)

/-- `Database::end_session`: `UPDATE sessions SET is_active = false WHERE
id = $session_id`. -/
def end_session (db : DB) (session_id : String) : DB :=
  { db with sessions := db.sessions.map (fun s =>
      if s.id == session_id then { s with is_active := false } else s) }

/-- `Database::record_interaction`: `create("interactions")` — appends. -/
def record_interaction (db : DB) (i : InteractionRecord) : DB :=
  { db with interactions := db.interactions ++ [i] }

end DB

/-! ## Auth service (`src/services/auth.rs`) -/

/-- `OAuthTokenResponse`: the provider's parsed token-endpoint response. -/
structure OAuthTokenResponse where
  access_token : String
  refresh_token : Option String
  expires_in : Int
  token_type : String
  scope : String
deriving DecidableEq, Repr

namespace AuthService

/-- `AuthService::exchange_code`, with the provider's response passed in
(`.error` covers both a transport failure and a non-success status, on
which the Rust code `bail!`s).  On success the credential is built with
`expires_at = now + expires_in`, scopes split on a space, and
`refresh_token = token_response.refresh_token.unwrap_or_default()` —
an omitted refresh token becomes the empty string. -/
def exchange_code (resp : Except String OAuthTokenResponse) (now : Time) :
    Except String AuthToken :=
  match resp with
  | .error e => .error e
  | .ok r =>
      .ok { access_token := r.access_token
            refresh_token := r.refresh_token.getD ""
            expires_at := now + r.expires_in
            token_type := r.token_type
            scopes := r.scope.splitOn " " }

/-- `AuthService::refresh_token`, with the provider's response passed in.
On success the credential keeps the refresh token that was passed in
(`// Keep the original refresh token`), whatever the response carried. -/
def refresh_token (refresh_tok : String)
    (resp : Except String OAuthTokenResponse) (now : Time) :
    Except String AuthToken :=
  match resp with
  | .error e => .error e
  | .ok r =>
      .ok { access_token := r.access_token
            refresh_token := refresh_tok
            expires_at := now + r.expires_in
            token_type := r.token_type
            scopes := r.scope.splitOn " " }

/-- `AuthService::create_session`: a new active session expiring in 7
days, persisted via `Database::create_session` (append). -/
def create_session (db : DB) (session_id user_id ip_address user_agent : String)
    (now : Time) : Session × DB :=
  let s : Session :=
    { id := session_id, user_id := user_id, created_at := now
      expires_at := now + 604800, ip_address := ip_address
      user_agent := user_agent, is_active := true }
  (s, { db with sessions := db.sessions ++ [s] })

/-- `AuthService::validate_session`: `None` when the session is missing,
when `!session.is_active || session.expires_at < Utc::now()`, or when the
owning user is missing; otherwise the session and its user. -/
def validate_session (db : DB) (session_id : String) (now : Time) :
    Option (Session × User) :=
  match db.get_session session_id with
  | none => none
  | some s =>
      if ¬ s.is_active ∨ s.expires_at < now then none
      else
        match db.get_user s.user_id with
        | none => none
        | some u => some (s, u)

/-- `AuthService::get_valid_access_token`.  The stored credential is
loaded; if `expires_at <= now + 5 minutes` the token is refreshed (the
provider's response is the `refresh_resp` argument) and the new
credential is persisted before its access token is returned; otherwise
the stored access token is returned and the store is untouched.  The
resulting store is returned alongside the outcome so failure paths show
it unchanged. -/
def get_valid_access_token (db : DB) (user_id : String) (now : Time)
    (refresh_resp : Except String OAuthTokenResponse) :
    Except String String × DB :=
  match db.get_auth_token user_id with
  | none => (.error ("No auth token found for user " ++ user_id), db)
  | some tok =>
      if tok.expires_at ≤ now + 5 * 60 then
        match refresh_token tok.refresh_token refresh_resp now with
        | .error e => (.error e, db)
        | .ok new_tok =>
            (.ok new_tok.access_token, db.save_auth_token user_id new_tok)
      else
        (.ok tok.access_token, db)

end AuthService

/-! ## YouTube service (`src/services/youtube.rs`)

YouTube API response shapes, exactly the `Deserialize` structs of the
source. -/

structure YouTubeChannelId where
  value : String
deriving DecidableEq, Repr

structure YouTubeCommentSnippet where
  author_display_name : String
  author_channel_id : YouTubeChannelId
  text_display : String
  like_count : Int
  published_at : Time
deriving DecidableEq, Repr

structure YouTubeComment where
  snippet : YouTubeCommentSnippet
deriving DecidableEq, Repr

structure YouTubeCommentThreadSnippet where
  total_reply_count : Int
  top_level_comment : YouTubeComment
deriving DecidableEq, Repr

structure YouTubeCommentThread where
  id : String
  snippet : YouTubeCommentThreadSnippet
deriving DecidableEq, Repr

structure YouTubeCommentThreadResponse where
  items : List YouTubeCommentThread
  next_page_token : Option String
deriving DecidableEq, Repr

structure YouTubeCommentItem where
  id : String
  snippet : YouTubeCommentSnippet
deriving DecidableEq, Repr

structure YouTubeCommentResponse where
  items : List YouTubeCommentItem
  next_page_token : Option String
deriving DecidableEq, Repr

structure YouTubeThumbnail where
  url : String
deriving DecidableEq, Repr

structure YouTubeThumbnails where
  default : YouTubeThumbnail
deriving DecidableEq, Repr

structure YouTubeVideoSnippet where
  title : String
  description : String
  published_at : Time
  thumbnails : YouTubeThumbnails
deriving DecidableEq, Repr

structure YouTubeVideoId where
  video_id : String
deriving DecidableEq, Repr

structure YouTubeVideoSearchItem where
  id : YouTubeVideoId
  snippet : YouTubeVideoSnippet
deriving DecidableEq, Repr

structure YouTubeVideoSearchResponse where
  items : List YouTubeVideoSearchItem
  next_page_token : Option String
deriving DecidableEq, Repr

structure YouTubeChannelItem where
  id : String
deriving DecidableEq, Repr

structure YouTubeChannelResponse where
  items : List YouTubeChannelItem
deriving DecidableEq, Repr

/-- `YouTubeVideo` (public struct of `src/services/youtube.rs`). -/
structure YouTubeVideo where
  id : String
  title : String
  description : String
  published_at : Time
  thumbnail_url : String
deriving DecidableEq, Repr

/-- The observable effects of a pagination loop: an HTTP page request
carrying the `pageToken` it was issued with (`none` on the first
request), and a `tokio::time::sleep` of the given milliseconds. -/
inductive Event where
  | req (cursor : Option String)
  | sleep (ms : Nat)
deriving DecidableEq, Repr

namespace YouTubeService

/-- The loop of `YouTubeService::fetch_comment_threads`, over the list of
responses the server gives to its successive requests (head answers the
request with cursor `c`).  Each iteration requests the page, `bail!`s on
a non-success response, extends the accumulator with `items`, continues
with `next_page_token` when present and breaks otherwise.  No sleep is
performed in this loop. -/
def threads_loop (c : Option String)
    (responses : List (Except String YouTubeCommentThreadResponse)) :
    Except String (List YouTubeCommentThread) × List Event :=
  match responses with
  | [] => (.error "no response", [.req c])
  | r :: rest =>
      match r with
      | .error e => (.error e, [.req c])
      | .ok page =>
          match page.next_page_token with
          | none => (.ok page.items, [.req c])
          | some t =>
              let r := threads_loop (some t) rest
              (r.1.map (fun items => page.items ++ items), .req c :: r.2)

/-- `YouTubeService::fetch_comment_threads`: the loop started with no
page token. -/
def fetch_comment_threads
    (responses : List (Except String YouTubeCommentThreadResponse)) :
    Except String (List YouTubeCommentThread) × List Event :=
  threads_loop none responses

/-- One page of `YouTubeService::fetch_replies`: the response items
mapped into `Reply` values (parent set to the comment id, `ai_generated
= false`, `ai_model = None`). -/
def reply_of_item (comment_id : String) (item : YouTubeCommentItem) : Reply :=
  { reply_id := item.id
    parent_id := comment_id
    author := item.snippet.author_display_name
    author_channel_id := item.snippet.author_channel_id.value
    text := item.snippet.text_display
    like_count := item.snippet.like_count
    published_at := item.snippet.published_at
    ai_generated := false
    ai_model := none
    metadata := [] }

/-- The loop of `YouTubeService::fetch_replies`; same shape as
`threads_loop`, mapping each page's items through `reply_of_item`.  No
sleep is performed in this loop. -/
def replies_loop (comment_id : String) (c : Option String)
    (responses : List (Except String YouTubeCommentResponse)) :
    Except String (List Reply) × List Event :=
  match responses with
  | [] => (.error "no response", [.req c])
  | r :: rest =>
      match r with
      | .error e => (.error e, [.req c])
      | .ok page =>
          match page.next_page_token with
          | none => (.ok (page.items.map (reply_of_item comment_id)), [.req c])
          | some t =>
              let r := replies_loop comment_id (some t) rest
              (r.1.map (fun items => page.items.map (reply_of_item comment_id) ++ items),
               .req c :: r.2)

/-- `YouTubeService::fetch_replies`: the loop started with no page token. -/
def fetch_replies (comment_id : String)
    (responses : List (Except String YouTubeCommentResponse)) :
    Except String (List Reply) × List Event :=
  replies_loop comment_id none responses

/-- The per-thread body of `YouTubeService::fetch_comments`: replies are
fetched only when `total_reply_count > 0`, and the `Comment` entity is
built with `replied_to = false` (`// Will be updated from database`). -/
def build_comment (video_id : String) (thread : YouTubeCommentThread)
    (reply_responses : String → List (Except String YouTubeCommentResponse)) :
    Except String Comment :=
  let snippet := thread.snippet.top_level_comment.snippet
  let replies : Except String (List Reply) :=
    if thread.snippet.total_reply_count > 0 then
      (fetch_replies thread.id (reply_responses thread.id)).1
    else
      .ok []
  replies.map (fun rs =>
    { video_id := video_id
      comment_id := thread.id
      author := snippet.author_display_name
      author_channel_id := snippet.author_channel_id.value
      text := snippet.text_display
      like_count := snippet.like_count
      published_at := snippet.published_at
      replies := rs
      replied_to := false
      metadata := [] })

/-- The thread loop of `fetch_comments`, building one `Comment` per
thread and propagating the first reply-fetch failure. -/
def build_comments (video_id : String) (threads : List YouTubeCommentThread)
    (reply_responses : String → List (Except String YouTubeCommentResponse)) :
    Except String (List Comment) :=
  match threads with
  | [] => .ok []
  | t :: ts =>
      match build_comment video_id t reply_responses with
      | .error e => .error e
      | .ok c =>
          match build_comments video_id ts reply_responses with
          | .error e => .error e
          | .ok cs => .ok (c :: cs)

/-- The merge step of `fetch_comments`: for each freshly built comment,
copy the stored comment's `replied_to` when a stored comment with the
same `comment_id` exists. -/
def merge_replied_to (db : DB) (cs : List Comment) : List Comment :=
  cs.map (fun c =>
    match db.get_comment c.comment_id with
    | some db_comment => { c with replied_to := db_comment.replied_to }
    | none => c)

/-- The ledger step of `fetch_comments`: one `CommentReceived`
interaction per returned comment, appended in order.  `mk_id` supplies
the `Uuid::new_v4` values, indexed by the loop position. -/
def record_observations (user_id video_id : String) (now : Time)
    (mk_id : Nat → String) : DB → Nat → List Comment → DB
  | db, _, [] => db
  | db, idx, c :: cs =>
      record_observations user_id video_id now mk_id
        (db.record_interaction
          { id := mk_id idx
            user_id := user_id
            video_id := video_id
            comment_id := c.comment_id
            reply_id := none
            interaction_type := .commentReceived
            timestamp := now
            data := [] })
        (idx + 1) cs

/-- `YouTubeService::fetch_comments`: get a valid access token (possibly
refreshing and persisting it), page through the comment threads, build
`Comment` entities (fetching replies for threads with `total_reply_count
> 0`), copy each stored comment's `replied_to` into the fresh entity,
persist all comments via `save_comments`, then append one
`CommentReceived` interaction per comment.  The resulting store is
returned alongside the outcome. -/
def fetch_comments (db : DB) (user_id video_id : String) (now : Time)
    (refresh_resp : Except String OAuthTokenResponse)
    (thread_responses : List (Except String YouTubeCommentThreadResponse))
    (reply_responses : String → List (Except String YouTubeCommentResponse))
    (mk_id : Nat → String) :
    Except String (List Comment) × DB :=
  match AuthService.get_valid_access_token db user_id now refresh_resp with
  | (.error e, db1) => (.error e, db1)
  | (.ok _, db1) =>
      match (fetch_comment_threads thread_responses).1 with
      | .error e => (.error e, db1)
      | .ok threads =>
          match build_comments video_id threads reply_responses with
          | .error e => (.error e, db1)
          | .ok built =>
              let comments := merge_replied_to db1 built
              let db2 := db1.save_comments video_id comments
              let db3 := record_observations user_id video_id now mk_id db2 0 comments
              (.ok comments, db3)

/-- `YouTubeService::post_reply`: get a valid access token, submit the
reply (`post_resp` is the remote response, `.error` on non-success),
build the `Reply` (`ai_generated = false`, `ai_model = None` — set by
the caller if needed), mark the stored comment replied, then append one
`ReplyPosted` interaction with an empty `video_id`. -/
def post_reply (db : DB) (user_id comment_id text : String) (now : Time)
    (refresh_resp : Except String OAuthTokenResponse)
    (post_resp : Except String YouTubeCommentItem)
    (interaction_id : String) :
    Except String Reply × DB :=
  match AuthService.get_valid_access_token db user_id now refresh_resp with
  | (.error e, db1) => (.error e, db1)
  | (.ok _, db1) =>
      match post_resp with
      | .error e => (.error ("Failed to post reply: " ++ e), db1)
      | .ok item =>
          let reply : Reply :=
            { reply_id := item.id
              parent_id := comment_id
              author := item.snippet.author_display_name
              author_channel_id := item.snippet.author_channel_id.value
              text := item.snippet.text_display
              like_count := item.snippet.like_count
              published_at := item.snippet.published_at
              ai_generated := false
              ai_model := none
              metadata := [] }
          let db2 := db1.mark_comment_replied comment_id true
          let db3 := db2.record_interaction
            { id := interaction_id
              user_id := user_id
              video_id := ""
              comment_id := comment_id
              reply_id := some reply.reply_id
              interaction_type := .replyPosted
              timestamp := now
              data := [] }
          (.ok reply, db3)

/-- One video entity per search item, as built in
`YouTubeService::get_channel_videos`. -/
def video_of_item (item : YouTubeVideoSearchItem) : YouTubeVideo :=
  { id := item.id.video_id
    title := item.snippet.title
    description := item.snippet.description
    published_at := item.snippet.published_at
    thumbnail_url := item.snippet.thumbnails.default.url }

/-- The video-page loop of `YouTubeService::get_channel_videos`: request
the page, `bail!` on non-success, push the built videos, break when
`next_page_token` is absent, and otherwise `sleep(100ms)` (`// Don't hit
rate limits`) before the next request. -/
def videos_loop (c : Option String)
    (responses : List (Except String YouTubeVideoSearchResponse)) :
    Except String (List YouTubeVideo) × List Event :=
  match responses with
  | [] => (.error "no response", [.req c])
  | r :: rest =>
      match r with
      | .error e => (.error e, [.req c])
      | .ok page =>
          match page.next_page_token with
          | none => (.ok (page.items.map video_of_item), [.req c])
          | some t =>
              let r := videos_loop (some t) rest
              (r.1.map (fun items => page.items.map video_of_item ++ items),
               .req c :: .sleep 100 :: r.2)

/-- `YouTubeService::get_channel_videos`: get a valid access token,
resolve the authenticated user's channel id (`channel_resp`; `bail!` on
non-success or an empty item list), then run the video-page loop.  The
loop's event trace is returned for the rate-limit claims. -/
def get_channel_videos (db : DB) (user_id : String) (now : Time)
    (refresh_resp : Except String OAuthTokenResponse)
    (channel_resp : Except String YouTubeChannelResponse)
    (video_responses : List (Except String YouTubeVideoSearchResponse)) :
    (Except String (List YouTubeVideo) × List Event) × DB :=
  match AuthService.get_valid_access_token db user_id now refresh_resp with
  | (.error e, db1) => ((.error e, []), db1)
  | (.ok _, db1) =>
      match channel_resp with
      | .error e => ((.error ("Failed to get channel ID: " ++ e), []), db1)
      | .ok chan =>
          match chan.items with
          | [] => ((.error "No channel found for the authenticated user", []), db1)
          | _ :: _ => (videos_loop none video_responses, db1)

end YouTubeService

/-! ## API handler layer (`src/api/handlers.rs`) -/

/-- `PostReplyRequest` from `src/api/handlers.rs` (`ai_generated`
defaults to `false` under serde). -/
structure PostReplyRequest where
  comment_id : String
  reply_text : String
  ai_generated : Bool
  ai_model : Option String
deriving DecidableEq, Repr

namespace Handlers

/-- The `post_reply` handler of `src/api/handlers.rs`.  `session_user` is
the outcome of `get_user_id_from_headers` (`none` → 401).  On a
successful service call it overrides the AI provenance when the request
asked for it, records an additional `ReplyPosted` interaction (a failure
of that write is logged and swallowed, so it is modelled as succeeding),
and returns the reply.  Service failures map to 500. -/
def post_reply (db : DB) (session_user : Option String)
    (request : PostReplyRequest) (now : Time)
    (refresh_resp : Except String OAuthTokenResponse)
    (post_resp : Except String YouTubeCommentItem)
    (service_uuid handler_uuid : String) :
    Except Nat Reply × DB :=
  match session_user with
  | none => (.error 401, db)
  | some user_id =>
      match YouTubeService.post_reply db user_id request.comment_id
          request.reply_text now refresh_resp post_resp service_uuid with
      | (.error _, db1) => (.error 500, db1)
      | (.ok reply0, db1) =>
          let reply :=
            if request.ai_generated then
              { reply0 with ai_generated := true, ai_model := request.ai_model }
            else reply0
          let data : StrMap :=
            match reply.ai_model with
            | some m => [("reply_text", reply.text), ("ai_model", m)]
            | none => [("reply_text", reply.text)]
          let db2 := db1.record_interaction
            { id := handler_uuid
              user_id := user_id
              video_id := ""
              comment_id := request.comment_id
              reply_id := some reply.reply_id
              interaction_type := .replyPosted
              timestamp := now
              data := data }
          (.ok reply, db2)

end Handlers

/-! ## Helper lemmas -/

/-- After `save_auth_token`, looking the token up for the same account
returns exactly the saved credential. -/
theorem DB.get_auth_token_save (db : DB) (user_id : String) (tok : AuthToken) :
    (db.save_auth_token user_id tok).get_auth_token user_id = some tok := by
  simp only [DB.save_auth_token, DB.get_auth_token]
  rw [List.find?_append]
  have h1 : (db.auth_tokens.filter (fun p => !(p.1 == user_id))).find?
      (fun p => p.1 == user_id) = none := by
    rw [List.find?_eq_none]
    intro x hx
    have h2 := List.of_mem_filter hx
    simp at h2 ⊢
    exact h2
  rw [h1]
  simp [List.find?]

/-- `get_valid_access_token` never touches the comments table. -/
theorem AuthService.get_valid_access_token_comments (db : DB) (user_id : String)
    (now : Time) (resp : Except String OAuthTokenResponse) :
    (AuthService.get_valid_access_token db user_id now resp).2.comments =
      db.comments := by
  cases h : db.get_auth_token user_id with
  | none => simp [AuthService.get_valid_access_token, h]
  | some tok =>
      simp only [AuthService.get_valid_access_token, h]
      split
      · cases h2 : AuthService.refresh_token tok.refresh_token resp now <;>
          simp [DB.save_auth_token]
      · simp

/-! ## Claim C1 -/

/-- **C1** — For an account with a stored credential,
`get_valid_access_token` returns the stored access token and leaves the
store unchanged when `expires_at` is more than 5 minutes after `now`;
when `expires_at <= now + 5 minutes` it refreshes, persists the new
credential (which is then the one stored for the account) and returns
the new access token. -/
theorem C1_ensure_valid_refresh_window (db : DB) (user_id : String)
    (now : Time) (refresh_resp : Except String OAuthTokenResponse)
    (tok : AuthToken) (h : db.get_auth_token user_id = some tok) :
    (now + 5 * 60 < tok.expires_at →
      AuthService.get_valid_access_token db user_id now refresh_resp =
        (.ok tok.access_token, db)) ∧
    (tok.expires_at ≤ now + 5 * 60 →
      ∀ r, refresh_resp = .ok r →
        ∃ new_tok,
          AuthService.refresh_token tok.refresh_token refresh_resp now =
            .ok new_tok ∧
          AuthService.get_valid_access_token db user_id now refresh_resp =
            (.ok new_tok.access_token, db.save_auth_token user_id new_tok) ∧
          (db.save_auth_token user_id new_tok).get_auth_token user_id =
            some new_tok) := by
  constructor
  · intro hlt
    have hnot : ¬ tok.expires_at ≤ now + 5 * 60 := not_le.mpr (by linarith)
    simp only [AuthService.get_valid_access_token, h]
    rw [if_neg hnot]
  · intro hle r hr
    subst hr
    refine ⟨_, rfl, ?_, DB.get_auth_token_save _ _ _⟩
    simp only [AuthService.get_valid_access_token, h]
    rw [if_pos hle]
    rfl

def c1Resp : OAuthTokenResponse :=
  { access_token := "a2", refresh_token := none, expires_in := 3600
    token_type := "Bearer", scope := "s1 s2" }

def c1Tok : AuthToken :=
  { access_token := "a1", refresh_token := "r1", expires_at := 10000
    token_type := "Bearer", scopes := ["s1"] }

def c1DB : DB :=
  { comments := [], users := [], auth_tokens := [("u1", c1Tok)]
    sessions := [], interactions := [] }

/-- Concrete check of C1: at `now = 0` the stored credential still has
10000 seconds of life, so the stored token `"a1"` is returned and the
store is untouched. -/
theorem C1_ensure_valid_refresh_window_witness :
    c1DB.get_auth_token "u1" = some c1Tok ∧
    AuthService.get_valid_access_token c1DB "u1" 0 (.ok c1Resp) =
      (.ok c1Tok.access_token, c1DB) := by
  refine ⟨by rfl, ?_⟩
  exact (C1_ensure_valid_refresh_window c1DB "u1" 0 (.ok c1Resp) c1Tok
    (by rfl)).1 (by decide)

/-! ## Claim C8 -/

/-- **C8** — When the credential is inside the refresh window and the
provider rejects the refresh, `get_valid_access_token` fails with the
provider's error and the store — in particular the stored credential —
is left exactly as it was. -/
theorem C8_refresh_failure_leaves_credential (db : DB) (user_id : String)
    (now : Time) (e : String) (tok : AuthToken)
    (h : db.get_auth_token user_id = some tok)
    (hexp : tok.expires_at ≤ now + 5 * 60) :
    AuthService.get_valid_access_token db user_id now (.error e) =
      (.error e, db) := by
  simp only [AuthService.get_valid_access_token, h]
  rw [if_pos hexp]
  rfl

def c8Tok : AuthToken :=
  { access_token := "a1", refresh_token := "r1", expires_at := 120
    token_type := "Bearer", scopes := ["s1"] }

def c8DB : DB :=
  { comments := [], users := [], auth_tokens := [("u1", c8Tok)]
    sessions := [], interactions := [] }

/-- Concrete check of C8: a credential expiring in 2 minutes triggers a
refresh; the provider rejects it and the store is returned unchanged. -/
theorem C8_refresh_failure_leaves_credential_witness :
    c8DB.get_auth_token "u1" = some c8Tok ∧
    c8Tok.expires_at ≤ (0 : Time) + 5 * 60 ∧
    AuthService.get_valid_access_token c8DB "u1" 0 (.error "invalid_grant") =
      (.error "invalid_grant", c8DB) := by
  refine ⟨by rfl, by decide, ?_⟩
  exact C8_refresh_failure_leaves_credential c8DB "u1" 0 "invalid_grant" c8Tok
    (by rfl) (by decide)

/-! ## Claim C9 -/

/-- **C9** — A successful refresh whose provider response omits a new
refresh token yields a credential whose `refresh_token` is the one that
was passed in, and whose `access_token`, `expires_at` (now plus
`expires_in`), `token_type` and `scopes` (the response's space-separated
`scope`) come from the provider's response. -/
theorem C9_refresh_preserves_refresh_token (refresh_tok : String)
    (r : OAuthTokenResponse) (now : Time) (h : r.refresh_token = none) :
    ∃ tok, AuthService.refresh_token refresh_tok (.ok r) now = .ok tok ∧
      tok.refresh_token = refresh_tok ∧
      tok.access_token = r.access_token ∧
      tok.expires_at = now + r.expires_in ∧
      tok.token_type = r.token_type ∧
      tok.scopes = r.scope.splitOn " " :=
  ⟨_, rfl, rfl, rfl, rfl, rfl, rfl⟩

def c9Resp : OAuthTokenResponse :=
  { access_token := "a2", refresh_token := none, expires_in := 3600
    token_type := "Bearer", scope := "s1 s2" }

/-- Concrete check of C9 at a response omitting the refresh token. -/
theorem C9_refresh_preserves_refresh_token_witness :
    c9Resp.refresh_token = none ∧
    ∃ tok, AuthService.refresh_token "r1" (.ok c9Resp) 50 = .ok tok ∧
      tok.refresh_token = "r1" ∧
      tok.access_token = c9Resp.access_token ∧
      tok.expires_at = 50 + c9Resp.expires_in ∧
      tok.token_type = c9Resp.token_type ∧
      tok.scopes = c9Resp.scope.splitOn " " :=
  ⟨rfl, C9_refresh_preserves_refresh_token "r1" c9Resp 50 rfl⟩

/-! ## Claim C10 -/

/-- **C10** — A successful code exchange whose provider response omits
the optional `refresh_token` yields a credential whose `refresh_token`
is the empty string (`unwrap_or_default`), and persisting it stores that
empty-refresh-token credential for the account, so a later refresh for
the account would be attempted with an empty refresh token. -/
theorem C10_exchange_code_empty_refresh_token (r : OAuthTokenResponse)
    (now : Time) (db : DB) (user_id : String) (h : r.refresh_token = none) :
    ∃ tok, AuthService.exchange_code (.ok r) now = .ok tok ∧
      tok.refresh_token = "" ∧
      (db.save_auth_token user_id tok).get_auth_token user_id = some tok := by
  refine ⟨_, rfl, ?_, DB.get_auth_token_save _ _ _⟩
  simp [h]

def c10Resp : OAuthTokenResponse :=
  { access_token := "a1", refresh_token := none, expires_in := 3600
    token_type := "Bearer", scope := "s1" }

def c10DB : DB :=
  { comments := [], users := [], auth_tokens := []
    sessions := [], interactions := [] }

/-- Concrete check of C10. -/
theorem C10_exchange_code_empty_refresh_token_witness :
    c10Resp.refresh_token = none ∧
    ∃ tok, AuthService.exchange_code (.ok c10Resp) 0 = .ok tok ∧
      tok.refresh_token = "" ∧
      (c10DB.save_auth_token "u1" tok).get_auth_token "u1" = some tok :=
  ⟨rfl, C10_exchange_code_empty_refresh_token c10Resp 0 c10DB "u1" rfl⟩

/-! ## Claim C5 -/

def c5User : User :=
  { id := "u1", name := "N", email := none, profile_picture_url := none
    created_at := 0, updated_at := 0
    preferences :=
      { enable_ai_replies := true, ai_model := "gpt-3.5-turbo"
        reply_tone := .friendly, enable_notifications := true
        polling_interval := 60, additional := [] }
    metadata := [] }

def c5Session : Session :=
  { id := "s1", user_id := "u1", created_at := 0, expires_at := 1000
    ip_address := "ip", user_agent := "ua", is_active := true }

def c5DB : DB :=
  { comments := [], users := [c5User], auth_tokens := []
    sessions := [c5Session], interactions := [] }

/-- **C5**, counterexample — at `now = expires_at` (`now = 1000`) the
active session is returned as valid together with its account, whereas
the claim says `validate` returns nothing at that boundary.  The code
rejects only `expires_at < now`. -/
theorem C5_counterexample_boundary_now :
    c5Session.is_active = true ∧ c5Session.expires_at = 1000 ∧
    AuthService.validate_session c5DB "s1" 1000 = some (c5Session, c5User) := by
  refine ⟨rfl, rfl, ?_⟩
  rfl

/-- **C5** (amended) — For a stored active session whose owning account
exists, `validate_session` returns the session and account exactly when
`now ≤ expires_at`: the boundary session with `expires_at = now` is
still valid (as is `expires_at = now + 1s`), and the session is invalid
only once `expires_at < now`. -/
theorem C5_session_boundary_amended (db : DB) (session_id : String)
    (now : Time) (s : Session) (u : User)
    (h1 : db.get_session session_id = some s)
    (h2 : s.is_active = true)
    (h3 : db.get_user s.user_id = some u) :
    (AuthService.validate_session db session_id now = some (s, u) ↔
      now ≤ s.expires_at) ∧
    (s.expires_at < now → AuthService.validate_session db session_id now = none) := by
  constructor
  · constructor
    · intro hres
      by_contra hn
      have hlt : s.expires_at < now := not_le.mp hn
      simp only [AuthService.validate_session, h1] at hres
      rw [if_pos (Or.inr hlt)] at hres
      exact Option.noConfusion hres
    · intro hle
      have hcond : ¬ (¬ s.is_active = true ∨ s.expires_at < now) := by
        rintro (hA | hB)
        · exact hA h2
        · exact absurd hB (not_lt.mpr hle)
      simp only [AuthService.validate_session, h1]
      rw [if_neg hcond, h3]
  · intro hlt
    simp only [AuthService.validate_session, h1]
    rw [if_pos (Or.inr hlt)]

/-- Concrete check of the amended C5: the session above is valid at
`now = 1000` (the boundary) and at `now = 999`. -/
theorem C5_session_boundary_amended_witness :
    AuthService.validate_session c5DB "s1" 1000 = some (c5Session, c5User) ∧
    AuthService.validate_session c5DB "s1" 999 = some (c5Session, c5User) := by
  constructor
  · exact (C5_session_boundary_amended c5DB "s1" 1000 c5Session c5User rfl rfl
      rfl).1.mpr (by decide)
  · exact (C5_session_boundary_amended c5DB "s1" 999 c5Session c5User rfl rfl
      rfl).1.mpr (by decide)

/-! ## Claim C4 -/

def c4Stored : Comment :=
  { video_id := "v1", comment_id := "c1", author := "A"
    author_channel_id := "ch", text := "old text", like_count := 0
    published_at := 0, replies := [], replied_to := false, metadata := [] }

def c4Fresh : Comment := { c4Stored with text := "new text" }

def c4DB : DB :=
  { comments := [c4Stored], users := [], auth_tokens := []
    sessions := [], interactions := [] }

/-- **C4** — `save_comments` does not upsert: it appends every given
comment to the comments table unconditionally (first conjunct), so
re-saving a comment whose `comment_id` already exists leaves two records
with that `comment_id` in storage instead of replacing the stored one
(second conjunct, at a concrete store). -/
theorem C4_save_comments_appends_duplicates :
    (∀ (db : DB) (video_id : String) (cs : List Comment),
      (db.save_comments video_id cs).comments = db.comments ++ cs) ∧
    ((c4DB.save_comments "v1" [c4Fresh]).comments.filter
        (fun c => c.comment_id == "c1")).length = 2 := by
  exact ⟨fun _ _ _ => rfl, rfl⟩

/-! ## Claim C3 -/

/-- Number of `ReplyPosted` records in the interaction ledger. -/
def postedCount (db : DB) : Nat :=
  (db.interactions.filter
    (fun i => i.interaction_type == InteractionType.replyPosted)).length

def c3Tok : AuthToken :=
  { access_token := "a1", refresh_token := "r1", expires_at := 100000
    token_type := "Bearer", scopes := ["s1"] }

def c3DB : DB :=
  { comments := [{ video_id := "v1", comment_id := "c1", author := "A"
                   author_channel_id := "ch", text := "nice video"
                   like_count := 3, published_at := 0, replies := []
                   replied_to := false, metadata := [] }]
    users := [], auth_tokens := [("u1", c3Tok)], sessions := []
    interactions := [] }

def c3Req : PostReplyRequest :=
  { comment_id := "c1", reply_text := "thanks!", ai_generated := false
    ai_model := none }

def c3Item : YouTubeCommentItem :=
  { id := "r1"
    snippet :=
      { author_display_name := "Owner", author_channel_id := { value := "och" }
        text_display := "thanks!", like_count := 0, published_at := 7 } }

/-- **C3** — A successful reply post through the `/reply/post` handler
appends TWO `ReplyPosted` interaction records, not one:
`YouTubeService::post_reply` itself appends exactly one (third
conjunct), and the handler then appends a second one for the same reply
(fourth conjunct), evaluated on a concrete store with a valid
credential. -/
theorem C3_handler_double_replyposted :
    postedCount c3DB = 0 ∧
    (Handlers.post_reply c3DB (some "u1") c3Req 0 (.error "down")
        (.ok c3Item) "svc-uuid" "handler-uuid").1.isOk = true ∧
    postedCount (YouTubeService.post_reply c3DB "u1" "c1" "thanks!" 0
        (.error "down") (.ok c3Item) "svc-uuid").2 = 1 ∧
    postedCount (Handlers.post_reply c3DB (some "u1") c3Req 0 (.error "down")
        (.ok c3Item) "svc-uuid" "handler-uuid").2 = 2 := by
  refine ⟨rfl, rfl, rfl, rfl⟩

/-! ## Claim C2 -/

/-- The ledger step never touches the comments table. -/
theorem YouTubeService.record_observations_comments :
    ∀ (cs : List Comment) (db : DB) (idx : Nat) (user_id video_id : String)
      (now : Time) (mk_id : Nat → String),
    (YouTubeService.record_observations user_id video_id now mk_id db idx
      cs).comments = db.comments := by
  intro cs
  induction cs with
  | nil => intro db idx u v n mk; rfl
  | cons c rest ih =>
      intro db idx u v n mk
      simp only [YouTubeService.record_observations]
      rw [ih]
      rfl

/-- The merge step: a freshly built comment whose `comment_id` has a
stored counterpart copies the stored `replied_to`; when every stored
record under `cid` carries `replied_to = true` and some stored record
under `cid` exists, every merged comment under `cid` carries `true`. -/
theorem YouTubeService.merge_replied_to_spec (db1 : DB) (built : List Comment)
    (cid : String) (hsome : db1.get_comment cid ≠ none)
    (hall1 : ∀ m ∈ db1.comments, m.comment_id = cid → m.replied_to = true) :
    ∀ c ∈ YouTubeService.merge_replied_to db1 built,
      c.comment_id = cid → c.replied_to = true := by
  intro c hc hcid
  simp only [YouTubeService.merge_replied_to] at hc
  obtain ⟨b, hb, hbc⟩ := List.mem_map.mp hc
  cases hm : db1.get_comment b.comment_id with
  | none =>
      rw [hm] at hbc
      have hbcid : b.comment_id = cid := by rw [← hbc] at hcid; exact hcid
      rw [hbcid] at hm
      exact absurd hm hsome
  | some m =>
      rw [hm] at hbc
      have hcb : c.comment_id = b.comment_id := by rw [← hbc]
      have hm' : db1.comments.find? (fun x => x.comment_id == b.comment_id) =
          some m := hm
      have hmmem : m ∈ db1.comments :=
        List.mem_of_find?_eq_some hm'
      have hmid := List.find?_some hm'
      simp only [beq_iff_eq] at hmid
      have hmid' : m.comment_id = cid := by
        rw [hmid, ← hcb]; exact hcid
      have : m.replied_to = true := hall1 m hmmem hmid'
      rw [← hbc]
      simpa using this

/-- **C2** — When every stored comment under `cid` has `replied_to =
true` (and one is stored), a successful re-sync of the video via
`fetch_comments` returns every comment under `cid` with `replied_to =
true` and leaves every persisted comment under `cid` (old records and
the newly appended ones alike) with `replied_to = true`: the merge step
copies the stored flag into the freshly built entity before persisting. -/
theorem C2_resync_preserves_replied_to (db : DB) (user_id video_id : String)
    (now : Time) (refresh_resp : Except String OAuthTokenResponse)
    (thread_responses : List (Except String YouTubeCommentThreadResponse))
    (reply_responses : String → List (Except String YouTubeCommentResponse))
    (mk_id : Nat → String) (cid : String) (c0 : Comment)
    (cs : List Comment) (db' : DB)
    (hstored : db.get_comment cid = some c0)
    (hall : ∀ c ∈ db.comments, c.comment_id = cid → c.replied_to = true)
    (hrun : YouTubeService.fetch_comments db user_id video_id now refresh_resp
      thread_responses reply_responses mk_id = (.ok cs, db')) :
    (∀ c ∈ cs, c.comment_id = cid → c.replied_to = true) ∧
    (∀ c ∈ db'.comments, c.comment_id = cid → c.replied_to = true) := by
  rcases hg : AuthService.get_valid_access_token db user_id now refresh_resp
    with ⟨r1, db1⟩
  have hc1 : db1.comments = db.comments := by
    have h := AuthService.get_valid_access_token_comments db user_id now
      refresh_resp
    rw [hg] at h
    exact h
  simp only [YouTubeService.fetch_comments, hg] at hrun
  cases r1 with
  | error e => simp at hrun
  | ok tokv =>
      simp only [] at hrun
      cases hft : (YouTubeService.fetch_comment_threads thread_responses).1 with
      | error e => rw [hft] at hrun; simp at hrun
      | ok threads =>
          simp only [hft] at hrun
          cases hbc : YouTubeService.build_comments video_id threads
              reply_responses with
          | error e => simp [hbc] at hrun
          | ok built =>
              simp only [hbc, Prod.mk.injEq, Except.ok.injEq] at hrun
              obtain ⟨hcs, hdb⟩ := hrun
              have hsome : db1.get_comment cid ≠ none := by
                have h1 : db1.get_comment cid = some c0 := by
                  simp only [DB.get_comment, hc1]
                  simpa [DB.get_comment] using hstored
                rw [h1]
                exact fun h => Option.noConfusion h
              have hall1 : ∀ m ∈ db1.comments, m.comment_id = cid →
                  m.replied_to = true := by
                rw [hc1]; exact hall
              have hmerge := YouTubeService.merge_replied_to_spec db1 built cid
                hsome hall1
              have hpart1 : ∀ c ∈ cs, c.comment_id = cid →
                  c.replied_to = true := by
                rw [← hcs]; exact hmerge
              refine ⟨hpart1, ?_⟩
              have hdbc : db'.comments =
                  db1.comments ++ YouTubeService.merge_replied_to db1 built := by
                rw [← hdb]
                rw [YouTubeService.record_observations_comments]
                rfl
              intro c hcmem hcid
              rw [hdbc] at hcmem
              rcases List.mem_append.mp hcmem with hold | hnew
              · exact hall1 c hold hcid
              · exact hmerge c hnew hcid

def c2Tok : AuthToken :=
  { access_token := "a1", refresh_token := "r1", expires_at := 100000
    token_type := "Bearer", scopes := ["s1"] }

def c2Stored : Comment :=
  { video_id := "v1", comment_id := "c1", author := "A"
    author_channel_id := "ch", text := "nice", like_count := 1
    published_at := 0, replies := [], replied_to := true, metadata := [] }

def c2DB : DB :=
  { comments := [c2Stored], users := [], auth_tokens := [("u1", c2Tok)]
    sessions := [], interactions := [] }

def c2Thread : YouTubeCommentThread :=
  { id := "c1"
    snippet :=
      { total_reply_count := 0
        top_level_comment :=
          { snippet :=
              { author_display_name := "A", author_channel_id := { value := "ch" }
                text_display := "nice", like_count := 1, published_at := 0 } } } }

def c2ThreadResponses : List (Except String YouTubeCommentThreadResponse) :=
  [.ok { items := [c2Thread], next_page_token := none }]

/-- Concrete check of C2: re-syncing video `v1` whose only comment is
stored with `replied_to = true` returns and persists it with
`replied_to = true`. -/
theorem C2_resync_preserves_replied_to_witness :
    ∃ cs db',
      YouTubeService.fetch_comments c2DB "u1" "v1" 0 (.error "unused")
        c2ThreadResponses (fun _ => []) (fun _ => "i") = (.ok cs, db') ∧
      (∀ c ∈ cs, c.comment_id = "c1" → c.replied_to = true) ∧
      (∀ c ∈ db'.comments, c.comment_id = "c1" → c.replied_to = true) := by
  refine ⟨_, _, rfl, ?_, ?_⟩
  · exact (C2_resync_preserves_replied_to c2DB "u1" "v1" 0 (.error "unused")
      c2ThreadResponses (fun _ => []) (fun _ => "i") "c1" c2Stored _ _
      rfl (by decide) rfl).1
  · exact (C2_resync_preserves_replied_to c2DB "u1" "v1" 0 (.error "unused")
      c2ThreadResponses (fun _ => []) (fun _ => "i") "c1" c2Stored _ _
      rfl (by decide) rfl).2

/-! ## Pagination machinery for claims C6 and C7 -/

namespace YouTubeService

/-- Items of all successful thread pages, in order of arrival. -/
def threadItems : List (Except String YouTubeCommentThreadResponse) →
    List YouTubeCommentThread
  | [] => []
  | .ok p :: rest => p.items ++ threadItems rest
  | .error _ :: rest => threadItems rest

/-- The next-page tokens carried by the thread pages, in order. -/
def threadTokens : List (Except String YouTubeCommentThreadResponse) →
    List String
  | [] => []
  | .ok p :: rest =>
      (match p.next_page_token with | some t => [t] | none => []) ++
        threadTokens rest
  | .error _ :: rest => threadTokens rest

/-- Well-formed thread paging per the remote protocol: at least one
page, every response successful, every page but the last carries a next
token and the last does not (absence of `nextPageToken` is the sole
termination signal). -/
def threadsWF : List (Except String YouTubeCommentThreadResponse) → Bool
  | [] => false
  | [.ok p] => p.next_page_token.isNone
  | .ok p :: r :: rest => p.next_page_token.isSome && threadsWF (r :: rest)
  | .error _ :: _ => false

/-- Items of all successful reply pages, in order of arrival. -/
def replyItems : List (Except String YouTubeCommentResponse) →
    List YouTubeCommentItem
  | [] => []
  | .ok p :: rest => p.items ++ replyItems rest
  | .error _ :: rest => replyItems rest

/-- The next-page tokens carried by the reply pages, in order. -/
def replyTokens : List (Except String YouTubeCommentResponse) → List String
  | [] => []
  | .ok p :: rest =>
      (match p.next_page_token with | some t => [t] | none => []) ++
        replyTokens rest
  | .error _ :: rest => replyTokens rest

/-- Well-formed reply paging (same protocol as `threadsWF`). -/
def repliesWF : List (Except String YouTubeCommentResponse) → Bool
  | [] => false
  | [.ok p] => p.next_page_token.isNone
  | .ok p :: r :: rest => p.next_page_token.isSome && repliesWF (r :: rest)
  | .error _ :: _ => false

/-- Items of all successful video-search pages, in order of arrival. -/
def videoItems : List (Except String YouTubeVideoSearchResponse) →
    List YouTubeVideoSearchItem
  | [] => []
  | .ok p :: rest => p.items ++ videoItems rest
  | .error _ :: rest => videoItems rest

/-- The next-page tokens carried by the video-search pages, in order. -/
def videoTokens : List (Except String YouTubeVideoSearchResponse) →
    List String
  | [] => []
  | .ok p :: rest =>
      (match p.next_page_token with | some t => [t] | none => []) ++
        videoTokens rest
  | .error _ :: rest => videoTokens rest

/-- Well-formed video paging (same protocol as `threadsWF`). -/
def videosWF : List (Except String YouTubeVideoSearchResponse) → Bool
  | [] => false
  | [.ok p] => p.next_page_token.isNone
  | .ok p :: r :: rest => p.next_page_token.isSome && videosWF (r :: rest)
  | .error _ :: _ => false

/-- The cursors of the page requests in an event trace, in order. -/
def reqCursors (tr : List Event) : List (Option String) :=
  tr.filterMap (fun e => match e with | .req c => some c | .sleep _ => none)

/-- Whether a trace performs any sleep at all. -/
def hasSleep (tr : List Event) : Bool :=
  tr.any (fun e => match e with | .sleep _ => true | .req _ => false)

/-- Whether an event is a page request. -/
def isReq : Event → Bool
  | .req _ => true
  | .sleep _ => false

/-- No two page requests are adjacent in the trace: some other event (in
these loops, only a sleep) separates any two consecutive requests. -/
def noAdjacentReqs : List Event → Bool
  | [] => true
  | [_] => true
  | e1 :: e2 :: rest => !(isReq e1 && isReq e2) && noAdjacentReqs (e2 :: rest)

/-- One continuing step of the thread loop. -/
theorem threads_loop_cons_some (p : YouTubeCommentThreadResponse)
    (rest : List (Except String YouTubeCommentThreadResponse))
    (c : Option String) (t : String) (ht : p.next_page_token = some t) :
    threads_loop c (.ok p :: rest) =
      ((threads_loop (some t) rest).1.map (fun items => p.items ++ items),
       .req c :: (threads_loop (some t) rest).2) := by
  simp only [threads_loop]
  rw [ht]

/-- One continuing step of the reply loop. -/
theorem replies_loop_cons_some (comment_id : String)
    (p : YouTubeCommentResponse)
    (rest : List (Except String YouTubeCommentResponse))
    (c : Option String) (t : String) (ht : p.next_page_token = some t) :
    replies_loop comment_id c (.ok p :: rest) =
      ((replies_loop comment_id (some t) rest).1.map
        (fun items => p.items.map (reply_of_item comment_id) ++ items),
       .req c :: (replies_loop comment_id (some t) rest).2) := by
  simp only [replies_loop]
  rw [ht]

/-- One continuing step of the video loop (note the trailing sleep). -/
theorem videos_loop_cons_some (p : YouTubeVideoSearchResponse)
    (rest : List (Except String YouTubeVideoSearchResponse))
    (c : Option String) (t : String) (ht : p.next_page_token = some t) :
    videos_loop c (.ok p :: rest) =
      ((videos_loop (some t) rest).1.map
        (fun items => p.items.map video_of_item ++ items),
       .req c :: .sleep 100 :: (videos_loop (some t) rest).2) := by
  simp only [videos_loop]
  rw [ht]

/-- Closed form of the comment-thread pagination loop on a well-formed
response sequence: it returns all pages' items concatenated and performs
one request per page, the first with no cursor and then one per
next-token. -/
theorem threads_loop_closed :
    ∀ (rs : List (Except String YouTubeCommentThreadResponse))
      (c : Option String), threadsWF rs = true →
    threads_loop c rs =
      (.ok (threadItems rs),
       .req c :: (threadTokens rs).map (fun t => Event.req (some t))) := by
  intro rs
  induction rs with
  | nil => intro c h; simp [threadsWF] at h
  | cons r rest ih =>
      intro c h
      cases r with
      | error e => cases rest <;> simp [threadsWF] at h
      | ok p =>
          cases rest with
          | nil =>
              cases hp : p.next_page_token with
              | none => simp [threads_loop, threadItems, threadTokens, hp]
              | some t => simp [threadsWF, hp] at h
          | cons r2 rest2 =>
              have h' : p.next_page_token.isSome = true ∧
                  threadsWF (r2 :: rest2) = true := by
                simpa [threadsWF, Bool.and_eq_true] using h
              obtain ⟨hs, hwf⟩ := h'
              obtain ⟨t, ht⟩ := Option.isSome_iff_exists.mp hs
              have ihh := ih (some t) hwf
              rw [threads_loop_cons_some p (r2 :: rest2) c t ht, ihh]
              simp [threadItems, threadTokens, ht, Except.map]

/-- Closed form of the reply pagination loop (as `threads_loop_closed`,
with the per-page mapping into `Reply`). -/
theorem replies_loop_closed (comment_id : String) :
    ∀ (rs : List (Except String YouTubeCommentResponse))
      (c : Option String), repliesWF rs = true →
    replies_loop comment_id c rs =
      (.ok ((replyItems rs).map (reply_of_item comment_id)),
       .req c :: (replyTokens rs).map (fun t => Event.req (some t))) := by
  intro rs
  induction rs with
  | nil => intro c h; simp [repliesWF] at h
  | cons r rest ih =>
      intro c h
      cases r with
      | error e => cases rest <;> simp [repliesWF] at h
      | ok p =>
          cases rest with
          | nil =>
              cases hp : p.next_page_token with
              | none => simp [replies_loop, replyItems, replyTokens, hp]
              | some t => simp [repliesWF, hp] at h
          | cons r2 rest2 =>
              have h' : p.next_page_token.isSome = true ∧
                  repliesWF (r2 :: rest2) = true := by
                simpa [repliesWF, Bool.and_eq_true] using h
              obtain ⟨hs, hwf⟩ := h'
              obtain ⟨t, ht⟩ := Option.isSome_iff_exists.mp hs
              have ihh := ih (some t) hwf
              rw [replies_loop_cons_some comment_id p (r2 :: rest2) c t ht, ihh]
              simp [replyItems, replyTokens, ht, Except.map]

/-- The request/sleep interleaving of the video loop for a given request
cursor and token sequence. -/
def videosTrace (c : Option String) : List String → List Event
  | [] => [.req c]
  | t :: rest => .req c :: .sleep 100 :: videosTrace (some t) rest

/-- Closed form of the channel-video pagination loop on a well-formed
response sequence: all pages' videos, one request per page, and a 100 ms
sleep between consecutive requests. -/
theorem videos_loop_closed :
    ∀ (rs : List (Except String YouTubeVideoSearchResponse))
      (c : Option String), videosWF rs = true →
    videos_loop c rs =
      (.ok ((videoItems rs).map video_of_item),
       videosTrace c (videoTokens rs)) := by
  intro rs
  induction rs with
  | nil => intro c h; simp [videosWF] at h
  | cons r rest ih =>
      intro c h
      cases r with
      | error e => cases rest <;> simp [videosWF] at h
      | ok p =>
          cases rest with
          | nil =>
              cases hp : p.next_page_token with
              | none => simp [videos_loop, videoItems, videoTokens, hp,
                  videosTrace]
              | some t => simp [videosWF, hp] at h
          | cons r2 rest2 =>
              have h' : p.next_page_token.isSome = true ∧
                  videosWF (r2 :: rest2) = true := by
                simpa [videosWF, Bool.and_eq_true] using h
              obtain ⟨hs, hwf⟩ := h'
              obtain ⟨t, ht⟩ := Option.isSome_iff_exists.mp hs
              have ihh := ih (some t) hwf
              rw [videos_loop_cons_some p (r2 :: rest2) c t ht, ihh]
              simp [videoItems, videoTokens, videosTrace, ht, Except.map]

end YouTubeService

namespace YouTubeService

/-- A well-formed response sequence carries one fewer next-token than it
has pages. -/
theorem threadTokens_length :
    ∀ rs, threadsWF rs = true → (threadTokens rs).length + 1 = rs.length := by
  intro rs
  induction rs with
  | nil => intro h; simp [threadsWF] at h
  | cons r rest ih =>
      intro h
      cases r with
      | error e => cases rest <;> simp [threadsWF] at h
      | ok p =>
          cases rest with
          | nil =>
              cases hp : p.next_page_token with
              | none => simp [threadTokens, hp]
              | some t => simp [threadsWF, hp] at h
          | cons r2 rest2 =>
              have h' : p.next_page_token.isSome = true ∧
                  threadsWF (r2 :: rest2) = true := by
                simpa [threadsWF, Bool.and_eq_true] using h
              obtain ⟨hs, hwf⟩ := h'
              obtain ⟨t, ht⟩ := Option.isSome_iff_exists.mp hs
              have ihh := ih hwf
              have htok : threadTokens (Except.ok p :: r2 :: rest2) =
                  t :: threadTokens (r2 :: rest2) := by
                show (match p.next_page_token with
                  | some t => [t] | none => []) ++ threadTokens (r2 :: rest2) = _
                rw [ht]
                rfl
              rw [htok]
              simp only [List.length_cons] at ihh ⊢
              omega

/-- As `threadTokens_length`, for reply pages. -/
theorem replyTokens_length :
    ∀ rs, repliesWF rs = true → (replyTokens rs).length + 1 = rs.length := by
  intro rs
  induction rs with
  | nil => intro h; simp [repliesWF] at h
  | cons r rest ih =>
      intro h
      cases r with
      | error e => cases rest <;> simp [repliesWF] at h
      | ok p =>
          cases rest with
          | nil =>
              cases hp : p.next_page_token with
              | none => simp [replyTokens, hp]
              | some t => simp [repliesWF, hp] at h
          | cons r2 rest2 =>
              have h' : p.next_page_token.isSome = true ∧
                  repliesWF (r2 :: rest2) = true := by
                simpa [repliesWF, Bool.and_eq_true] using h
              obtain ⟨hs, hwf⟩ := h'
              obtain ⟨t, ht⟩ := Option.isSome_iff_exists.mp hs
              have ihh := ih hwf
              have htok : replyTokens (Except.ok p :: r2 :: rest2) =
                  t :: replyTokens (r2 :: rest2) := by
                show (match p.next_page_token with
                  | some t => [t] | none => []) ++ replyTokens (r2 :: rest2) = _
                rw [ht]
                rfl
              rw [htok]
              simp only [List.length_cons] at ihh ⊢
              omega

/-- As `threadTokens_length`, for video pages. -/
theorem videoTokens_length :
    ∀ rs, videosWF rs = true → (videoTokens rs).length + 1 = rs.length := by
  intro rs
  induction rs with
  | nil => intro h; simp [videosWF] at h
  | cons r rest ih =>
      intro h
      cases r with
      | error e => cases rest <;> simp [videosWF] at h
      | ok p =>
          cases rest with
          | nil =>
              cases hp : p.next_page_token with
              | none => simp [videoTokens, hp]
              | some t => simp [videosWF, hp] at h
          | cons r2 rest2 =>
              have h' : p.next_page_token.isSome = true ∧
                  videosWF (r2 :: rest2) = true := by
                simpa [videosWF, Bool.and_eq_true] using h
              obtain ⟨hs, hwf⟩ := h'
              obtain ⟨t, ht⟩ := Option.isSome_iff_exists.mp hs
              have ihh := ih hwf
              have htok : videoTokens (Except.ok p :: r2 :: rest2) =
                  t :: videoTokens (r2 :: rest2) := by
                show (match p.next_page_token with
                  | some t => [t] | none => []) ++ videoTokens (r2 :: rest2) = _
                rw [ht]
                rfl
              rw [htok]
              simp only [List.length_cons] at ihh ⊢
              omega

theorem reqCursors_cons_req (c : Option String) (tr : List Event) :
    reqCursors (.req c :: tr) = c :: reqCursors tr := by
  simp [reqCursors]

theorem reqCursors_cons_sleep (ms : Nat) (tr : List Event) :
    reqCursors (.sleep ms :: tr) = reqCursors tr := by
  simp [reqCursors]

theorem reqCursors_map_req (ts : List String) :
    reqCursors (ts.map (fun t => Event.req (some t))) = ts.map some := by
  induction ts with
  | nil => rfl
  | cons t rest ih => rw [List.map_cons, reqCursors_cons_req, ih, List.map_cons]

theorem reqCursors_videosTrace (ts : List String) :
    ∀ c, reqCursors (videosTrace c ts) = c :: ts.map some := by
  induction ts with
  | nil => intro c; rfl
  | cons t rest ih =>
      intro c
      simp only [videosTrace]
      rw [reqCursors_cons_req, reqCursors_cons_sleep, ih, List.map_cons]

/-- Distinct next-tokens give distinct request cursors. -/
theorem nodup_none_cons_map_some (ts : List String) (h : ts.Nodup) :
    ((none : Option String) :: ts.map some).Nodup := by
  refine List.nodup_cons.mpr ⟨?_, h.map (fun a b hab => Option.some.inj hab)⟩
  simp

end YouTubeService

/-! ## Claim C6 -/

/-- **C6** — Each of the three pagination loops (comment threads,
replies, channel videos), run against a well-formed response sequence
(every page successful, a next-token on every page but the last),
terminates with the concatenation of all pages' items, issues exactly
one page request per page (so the result size is the sum of the
per-page item counts and the loop performs `rs.length` fetches), with
the request cursors being the empty cursor followed by each next-token
once — no cursor requested twice when the next-tokens are distinct. -/
theorem C6_pagination_terminates_and_concatenates :
    (∀ rs, YouTubeService.threadsWF rs = true →
      (YouTubeService.fetch_comment_threads rs).1 =
        .ok (YouTubeService.threadItems rs) ∧
      YouTubeService.reqCursors (YouTubeService.fetch_comment_threads rs).2 =
        none :: (YouTubeService.threadTokens rs).map some ∧
      (YouTubeService.reqCursors
        (YouTubeService.fetch_comment_threads rs).2).length = rs.length ∧
      ((YouTubeService.threadTokens rs).Nodup →
        (YouTubeService.reqCursors
          (YouTubeService.fetch_comment_threads rs).2).Nodup)) ∧
    (∀ (comment_id : String) rs, YouTubeService.repliesWF rs = true →
      (YouTubeService.fetch_replies comment_id rs).1 =
        .ok ((YouTubeService.replyItems rs).map
          (YouTubeService.reply_of_item comment_id)) ∧
      YouTubeService.reqCursors (YouTubeService.fetch_replies comment_id rs).2 =
        none :: (YouTubeService.replyTokens rs).map some ∧
      (YouTubeService.reqCursors
        (YouTubeService.fetch_replies comment_id rs).2).length = rs.length ∧
      ((YouTubeService.replyTokens rs).Nodup →
        (YouTubeService.reqCursors
          (YouTubeService.fetch_replies comment_id rs).2).Nodup)) ∧
    (∀ rs, YouTubeService.videosWF rs = true →
      (YouTubeService.videos_loop none rs).1 =
        .ok ((YouTubeService.videoItems rs).map YouTubeService.video_of_item) ∧
      YouTubeService.reqCursors (YouTubeService.videos_loop none rs).2 =
        none :: (YouTubeService.videoTokens rs).map some ∧
      (YouTubeService.reqCursors
        (YouTubeService.videos_loop none rs).2).length = rs.length ∧
      ((YouTubeService.videoTokens rs).Nodup →
        (YouTubeService.reqCursors
          (YouTubeService.videos_loop none rs).2).Nodup)) := by
  refine ⟨?_, ?_, ?_⟩
  · intro rs h
    have hc := YouTubeService.threads_loop_closed rs none h
    have hl := YouTubeService.threadTokens_length rs h
    have h1 : (YouTubeService.fetch_comment_threads rs).1 =
        .ok (YouTubeService.threadItems rs) := by
      simp only [YouTubeService.fetch_comment_threads, hc]
    have h2 : YouTubeService.reqCursors
        (YouTubeService.fetch_comment_threads rs).2 =
        none :: (YouTubeService.threadTokens rs).map some := by
      simp only [YouTubeService.fetch_comment_threads, hc]
      rw [YouTubeService.reqCursors_cons_req, YouTubeService.reqCursors_map_req]
    refine ⟨h1, h2, ?_, ?_⟩
    · rw [h2]
      simp only [List.length_cons, List.length_map]
      omega
    · intro hnd
      rw [h2]
      exact YouTubeService.nodup_none_cons_map_some _ hnd
  · intro comment_id rs h
    have hc := YouTubeService.replies_loop_closed comment_id rs none h
    have hl := YouTubeService.replyTokens_length rs h
    have h1 : (YouTubeService.fetch_replies comment_id rs).1 =
        .ok ((YouTubeService.replyItems rs).map
          (YouTubeService.reply_of_item comment_id)) := by
      simp only [YouTubeService.fetch_replies, hc]
    have h2 : YouTubeService.reqCursors
        (YouTubeService.fetch_replies comment_id rs).2 =
        none :: (YouTubeService.replyTokens rs).map some := by
      simp only [YouTubeService.fetch_replies, hc]
      rw [YouTubeService.reqCursors_cons_req, YouTubeService.reqCursors_map_req]
    refine ⟨h1, h2, ?_, ?_⟩
    · rw [h2]
      simp only [List.length_cons, List.length_map]
      omega
    · intro hnd
      rw [h2]
      exact YouTubeService.nodup_none_cons_map_some _ hnd
  · intro rs h
    have hc := YouTubeService.videos_loop_closed rs none h
    have hl := YouTubeService.videoTokens_length rs h
    have h1 : (YouTubeService.videos_loop none rs).1 =
        .ok ((YouTubeService.videoItems rs).map
          YouTubeService.video_of_item) := by
      rw [hc]
    have h2 : YouTubeService.reqCursors (YouTubeService.videos_loop none rs).2 =
        none :: (YouTubeService.videoTokens rs).map some := by
      rw [hc]
      exact YouTubeService.reqCursors_videosTrace _ none
    refine ⟨h1, h2, ?_, ?_⟩
    · rw [h2]
      simp only [List.length_cons, List.length_map]
      omega
    · intro hnd
      rw [h2]
      exact YouTubeService.nodup_none_cons_map_some _ hnd

def c6Thread1 : YouTubeCommentThread :=
  { id := "ca"
    snippet :=
      { total_reply_count := 0
        top_level_comment :=
          { snippet :=
              { author_display_name := "A1", author_channel_id := { value := "h1" }
                text_display := "one", like_count := 0, published_at := 1 } } } }

def c6Thread2 : YouTubeCommentThread :=
  { id := "cb"
    snippet :=
      { total_reply_count := 0
        top_level_comment :=
          { snippet :=
              { author_display_name := "A2", author_channel_id := { value := "h2" }
                text_display := "two", like_count := 0, published_at := 2 } } } }

def c6ThreadRs : List (Except String YouTubeCommentThreadResponse) :=
  [.ok { items := [c6Thread1], next_page_token := some "t1" },
   .ok { items := [c6Thread2], next_page_token := none }]

def c6ReplyRs : List (Except String YouTubeCommentResponse) :=
  [.ok { items := [{ id := "ra"
                     snippet :=
                       { author_display_name := "B", author_channel_id := { value := "h3" }
                         text_display := "re", like_count := 0, published_at := 3 } }]
         next_page_token := none }]

def c6VideoRs : List (Except String YouTubeVideoSearchResponse) :=
  [.ok { items := [], next_page_token := some "vt" },
   .ok { items := [], next_page_token := none }]

/-- Concrete check of C6 on a two-page thread fetch, a one-page reply
fetch and a two-page video fetch. -/
theorem C6_pagination_witness :
    YouTubeService.threadsWF c6ThreadRs = true ∧
    (YouTubeService.fetch_comment_threads c6ThreadRs).1 =
      .ok (YouTubeService.threadItems c6ThreadRs) ∧
    (YouTubeService.reqCursors
      (YouTubeService.fetch_comment_threads c6ThreadRs).2).length = 2 ∧
    (YouTubeService.fetch_replies "ca" c6ReplyRs).1 =
      .ok ((YouTubeService.replyItems c6ReplyRs).map
        (YouTubeService.reply_of_item "ca")) ∧
    (YouTubeService.videos_loop none c6VideoRs).1 =
      .ok ((YouTubeService.videoItems c6VideoRs).map
        YouTubeService.video_of_item) := by
  refine ⟨rfl, ?_, ?_, ?_, ?_⟩
  · exact (C6_pagination_terminates_and_concatenates.1 c6ThreadRs rfl).1
  · exact ((C6_pagination_terminates_and_concatenates.1 c6ThreadRs
      rfl).2.2.1).trans rfl
  · exact (C6_pagination_terminates_and_concatenates.2.1 "ca" c6ReplyRs rfl).1
  · exact (C6_pagination_terminates_and_concatenates.2.2 c6VideoRs rfl).1

/-! ## Claim C7 -/

namespace YouTubeService

/-- Every sleep in a trace is the 100 ms rate-limit sleep. -/
def sleepsAre100 (tr : List Event) : Bool :=
  tr.all (fun e => match e with | .sleep ms => ms == 100 | .req _ => true)

theorem hasSleep_cons_req (c : Option String) (tr : List Event) :
    hasSleep (.req c :: tr) = hasSleep tr := by
  simp [hasSleep]

theorem noAdjacentReqs_cons_sleep (ms : Nat) (tr : List Event) :
    noAdjacentReqs (.sleep ms :: tr) = noAdjacentReqs tr := by
  cases tr with
  | nil => rfl
  | cons e rest => simp [noAdjacentReqs, isReq]

theorem noAdjacentReqs_req_sleep (c : Option String) (ms : Nat)
    (tr : List Event) :
    noAdjacentReqs (.req c :: .sleep ms :: tr) =
      noAdjacentReqs (.sleep ms :: tr) := by
  simp [noAdjacentReqs, isReq]

end YouTubeService

def c7Responses : List (Except String YouTubeCommentThreadResponse) :=
  [.ok { items := [], next_page_token := some "pt" },
   .ok { items := [], next_page_token := none }]

/-- **C7**, counterexample — a two-page comment-thread fetch issues its
two page requests back to back: its trace is the two requests with no
sleep anywhere (and in particular the two requests are adjacent), so no
minimum inter-page delay is imposed between comment-thread pages. -/
theorem C7_counterexample_threads_no_delay :
    (YouTubeService.fetch_comment_threads c7Responses).2 =
      [Event.req none, Event.req (some "pt")] ∧
    YouTubeService.hasSleep
      (YouTubeService.fetch_comment_threads c7Responses).2 = false ∧
    YouTubeService.noAdjacentReqs
      (YouTubeService.fetch_comment_threads c7Responses).2 = false :=
  ⟨rfl, rfl, rfl⟩

/-- **C7** (amended) — The 100 ms inter-page delay exists only in the
channel-video pagination: the comment-thread and reply loops never
sleep (their traces contain no sleep event at all), while the video
loop never issues two adjacent page requests — every pair of
consecutive page requests is separated by a sleep, and every sleep it
performs is 100 ms. -/
theorem C7_delay_only_between_video_pages :
    (∀ (c : Option String) rs,
      YouTubeService.hasSleep (YouTubeService.threads_loop c rs).2 = false) ∧
    (∀ (comment_id : String) (c : Option String) rs,
      YouTubeService.hasSleep
        (YouTubeService.replies_loop comment_id c rs).2 = false) ∧
    (∀ (c : Option String) rs,
      YouTubeService.noAdjacentReqs (YouTubeService.videos_loop c rs).2 = true ∧
      YouTubeService.sleepsAre100 (YouTubeService.videos_loop c rs).2 = true) := by
  refine ⟨?_, ?_, ?_⟩
  · intro c rs
    induction rs generalizing c with
    | nil => rfl
    | cons r rest ih =>
        cases r with
        | error e => rfl
        | ok p =>
            cases hp : p.next_page_token with
            | none =>
                simp [YouTubeService.threads_loop, hp, YouTubeService.hasSleep]
            | some t =>
                rw [YouTubeService.threads_loop_cons_some p rest c t hp,
                  YouTubeService.hasSleep_cons_req]
                exact ih (some t)
  · intro comment_id c rs
    induction rs generalizing c with
    | nil => rfl
    | cons r rest ih =>
        cases r with
        | error e => rfl
        | ok p =>
            cases hp : p.next_page_token with
            | none =>
                simp [YouTubeService.replies_loop, hp, YouTubeService.hasSleep]
            | some t =>
                rw [YouTubeService.replies_loop_cons_some comment_id p rest c
                  t hp, YouTubeService.hasSleep_cons_req]
                exact ih (some t)
  · intro c rs
    induction rs generalizing c with
    | nil => exact ⟨rfl, rfl⟩
    | cons r rest ih =>
        cases r with
        | error e => exact ⟨rfl, rfl⟩
        | ok p =>
            cases hp : p.next_page_token with
            | none =>
                constructor
                · simp [YouTubeService.videos_loop, hp,
                    YouTubeService.noAdjacentReqs]
                · simp [YouTubeService.videos_loop, hp,
                    YouTubeService.sleepsAre100]
            | some t =>
                obtain ⟨ih1, ih2⟩ := ih (some t)
                rw [YouTubeService.videos_loop_cons_some p rest c t hp]
                constructor
                · rw [YouTubeService.noAdjacentReqs_req_sleep,
                    YouTubeService.noAdjacentReqs_cons_sleep]
                  exact ih1
                · simpa [YouTubeService.sleepsAre100] using ih2
